import Mathlib

/-!
Verification development for the Portis web SDK provider
(`src/packages/portis-web3/src/index.ts` and `interfaces.ts`).

The TypeScript class `Portis` validates its constructor parameters,
builds a memoized widget-handshake promise, and assembles a
`web3-provider-engine` pipeline of seven subproviders with a custom
synchronous `send` facade. The definitions below are a shallow
embedding of that code: pure functions of the source become Lean
functions, the mutable fields (`selectedAddress`, `config`, the widget
promise) become an explicit state record with a step function over the
class's operations, and JavaScript truthiness is modelled explicitly
where the source relies on it (`!dappId`, `if (options.scope)`,
`this.selectedAddress ? ... : ...`, `if (!error && result)`).

Behavior of the third-party `web3-provider-engine` library (stage
dispatch, response assembly, the bundled Cache/Subscriptions/Filter/
Nonce/HookedWallet subproviders) is not part of this repository; where
a claim depends on it, the dispatch semantics are modelled from the
spec's pipeline contract (each stage calls exactly one of `next` or
`end`; stages run in registration order) and the library stages' own
handlers are left abstract, while everything registered by
`_initProvider` itself (the fixture table, the hooks, the relay stage,
the registration order, `engine.send`) is translated from the source.
-/

/-- A JavaScript-like value, used for JSON-RPC results and fixture
entries. -/
inductive JsVal where
  | str (s : String)
  | bool (b : Bool)
  | num (n : Int)
  | arr (xs : List String)
  | nullVal
  | undef
deriving Repr, DecidableEq

/-- `INetwork` from `interfaces.ts`: `{ nodeUrl, chainId?, nodeProtocol? }`. -/
structure INetwork where
  nodeUrl : String
  chainId : Option Nat := none
  nodeProtocol : Option String := none
deriving Repr, DecidableEq

/-- The `network` constructor argument: `string | INetwork`. -/
inductive NetworkParam where
  | str (s : String)
  | net (n : INetwork)
deriving Repr, DecidableEq

/-- JavaScript truthiness of the `network` argument: an object is
always truthy, a string is truthy iff non-empty (the source tests
`if (!network)`). -/
def NetworkParam.truthy : NetworkParam → Bool
  | .str s => s ≠ ""
  | .net _ => true

/-- A JavaScript value supplied as the `scope` option. The TypeScript
type is `Scope[]` with `Scope = 'email'`, but `_valiadateParams`
defends against untyped callers with an `Array.isArray` check, so the
model admits non-array values as well. -/
inductive ScopeValue where
  | arr (items : List String)
  | str (s : String)
  | num (n : Int)
  | boolVal (b : Bool)
  | nullVal
deriving Repr, DecidableEq

/-- JavaScript truthiness of a scope value (arrays are objects and
hence always truthy; `null`, `""`, `0`, `false` are falsy). Used for
the source's `if (options.scope)` guard. -/
def ScopeValue.truthy : ScopeValue → Bool
  | .arr _ => true
  | .str s => s ≠ ""
  | .num n => n ≠ 0
  | .boolVal b => b
  | .nullVal => false

/-- `Array.isArray` on a scope value. -/
def ScopeValue.isArray : ScopeValue → Bool
  | .arr _ => true
  | _ => false

/-- `IOptions` from `interfaces.ts`: `{ scope?: Scope[] }` (modelled
with arbitrary JavaScript values, see `ScopeValue`). -/
structure IOptions where
  scope : Option ScopeValue := none
deriving Repr, DecidableEq

/-- The distinct errors thrown by `_valiadateParams`, identified by
which `throw new Error(...)` site raises them. -/
inductive ValidationError where
  | missingDappId
  | missingNetwork
  | scopeNotArray
  | invalidScope
deriving Repr, DecidableEq

/-- `_valiadateParams` (index.ts lines 59-84), translated clause by
clause: throw if `!dappId`; throw if `!network`; then only when
`options.scope` is truthy, throw if it is not an array, and throw if
filtering it by membership in `['email']` leaves any element. -/
def valiadateParams (dappId : String) (network : NetworkParam) (options : IOptions) :
    Option ValidationError :=
  if dappId = "" then some .missingDappId
  else if network.truthy = false then some .missingNetwork
  else
    match options.scope with
    | none => none
    | some sv =>
      if sv.truthy = false then none
      else if sv.isArray = false then some .scopeNotArray
      else
        match sv with
        | .arr items =>
          let unknownScope := items.filter (fun item => !(["email"].contains item))
          if unknownScope.length > 0 then some .invalidScope else none
        | _ => none

/-- `ISDKConfig` from `interfaces.ts`: the per-session configuration
record assembled by the constructor. -/
structure SDKConfig where
  dappId : String
  network : INetwork
  version : String
  defaultEmail : Option String := none
  scope : Option ScopeValue := none
deriving Repr, DecidableEq

/-- The SDK version constant (index.ts line 15; substituted at build
time). -/
def sdkVersion : String := "$$PORTIS_SDK_VERSION$$"

/-- Modelled from the spec: `networkAdapter` (imported from
`./networks`, a file excluded from the core sources) resolves the
`string | INetwork` argument to an `INetwork` endpoint description;
the spec places its internals out of scope, so a network name is
mapped to a node-URL-only record and a descriptor passes through. -/
def networkAdapter : NetworkParam → INetwork
  | .str s => { nodeUrl := s }
  | .net n => n

/-- When the widget handshake is initiated, per `_initWidget` (index.ts
lines 86-132): immediately inside the constructor when
`document.readyState` is already loaded/interactive/complete, otherwise
at the window `load` event. Nothing in the class defers it to the
first operation that needs the widget. -/
inductive HandshakeTrigger where
  | atConstruction
  | atWindowLoad
deriving Repr, DecidableEq

/-- The mutable state of a `Portis` instance: its config, the cached
`selectedAddress`, the identity of the single widget promise created by
the constructor, how many handshakes have been initiated for the
instance, and when the handshake fires. -/
structure PortisState where
  config : SDKConfig
  selectedAddress : Option String := none
  widgetPromiseId : Nat := 0
  handshakesStarted : Nat := 0
  handshakeTrigger : HandshakeTrigger := .atWindowLoad
deriving Repr, DecidableEq

/-- The `Portis` constructor (index.ts lines 30-35): validate the
parameters (throwing on failure before anything else is built), then
create the config, the single widget promise, and the provider.
`docReady` says whether `document.readyState` was already
loaded/interactive/complete, which decides when the one handshake
starts. -/
def construct (dappId : String) (network : NetworkParam) (options : IOptions)
    (docReady : Bool) : Except ValidationError PortisState :=
  match valiadateParams dappId network options with
  | some e => .error e
  | none =>
    .ok
      { config :=
          { dappId := dappId
            network := networkAdapter network
            version := sdkVersion
            defaultEmail := none
            scope := options.scope }
        selectedAddress := none
        widgetPromiseId := 0
        handshakesStarted := 1
        handshakeTrigger := if docReady then .atConstruction else .atWindowLoad }

/-- Whether construction throws (the constructor re-raises exactly the
validation errors). -/
def constructThrows (dappId : String) (network : NetworkParam) (options : IOptions) : Bool :=
  (valiadateParams dappId network options).isSome

/-- Number of widget handshakes initiated by a construction attempt: a
thrown construction never reaches `_initWidget`. -/
def handshakesOf : Except ValidationError PortisState → Nat
  | .error _ => 0
  | .ok s => s.handshakesStarted

/-- `IPayload` from `interfaces.ts`: a JSON-RPC request
`{ id, jsonrpc, method, params }`. -/
structure RpcRequest where
  id : Nat
  jsonrpc : String
  method : String
  params : List JsVal := []
deriving Repr, DecidableEq

/-- A JSON-RPC response as the engine delivers it: the original `id`
and `jsonrpc` plus an `error`/`result` pair. -/
structure RpcResponse where
  id : Nat
  jsonrpc : String
  error : Option String := none
  result : JsVal
deriving Repr, DecidableEq

/-- The `{ error, result }` pair every widget round trip resolves to
(`IConnectionMethods` in `interfaces.ts`). -/
structure RemoteReply where
  error : Option String := none
  result : JsVal
deriving Repr, DecidableEq

/-- What a pipeline stage does with a request: terminate the chain
with `end(error, result)`, or pass it downstream with `next()`. -/
inductive StageResult where
  | ended (error : Option String) (result : JsVal)
  | next
deriving Repr, DecidableEq

/-- The seven subproviders registered by `_initProvider`, named by
their roles. -/
inductive StageTag where
  | fixture
  | cache
  | subscriptions
  | filterStage
  | nonce
  | hookedWallet
  | relay
deriving Repr, DecidableEq, BEq

/-- A pipeline stage: its role tag and its `handleRequest` behavior on
a request. -/
structure Stage where
  tag : StageTag
  handle : RpcRequest → StageResult

/-- The outcome the engine observes when some stage ends a request. -/
structure PipelineOutcome where
  endedBy : StageTag
  error : Option String
  result : JsVal
deriving Repr, DecidableEq

/-- Modelled from the spec: the engine invokes the registered stages
in registration order, each calling exactly one of `next` (pass the
request to the following stage) or `end` (terminate the chain); the
library's dispatch loop itself is not part of this repository.
Returns the list of stage tags that observed the request together with
the outcome, `none` when every stage forwarded and the chain fell off
the end. -/
def dispatch : List Stage → RpcRequest → List StageTag × Option PipelineOutcome
  | [], _ => ([], none)
  | s :: rest, req =>
    match s.handle req with
    | .ended e r => ([s.tag], some { endedBy := s.tag, error := e, result := r })
    | .next =>
      let p := dispatch rest req
      (s.tag :: p.1, p.2)

/-- The static response table handed to `FixtureSubprovider`
(index.ts lines 172-180). -/
def fixtureTable (version : String) : List (String × JsVal) :=
  [("web3_clientVersion", .str ("Portis/v" ++ version ++ "/javascript")),
   ("net_listening", .bool true),
   ("eth_hashrate", .str "0x00"),
   ("eth_mining", .bool false),
   ("eth_syncing", .bool true)]

/-- Modelled from the spec: the Fixture stage answers the introspection
methods of its static table unconditionally (never calling `next` for
them) and forwards every other method; the table itself is the one the
source passes to `FixtureSubprovider`. -/
def fixtureHandle (version : String) (req : RpcRequest) : StageResult :=
  match (fixtureTable version).lookup req.method with
  | some v => .ended none v
  | none => .next

/-- The terminal relay stage (index.ts lines 230-237): await the
widget communication, perform the `relay` round trip, and
unconditionally `end(error, result)` with the reply. `remote` gives
the reply of the round trip for each payload. -/
def relayHandle (remote : RpcRequest → RemoteReply) (req : RpcRequest) : StageResult :=
  .ended (remote req).error (remote req).result

/-- `_initProvider`'s registration sequence (index.ts lines 172-237):
the fixture stage with the source's table, then the Cache,
Subscriptions, Filter and Nonce subproviders (library code, handlers
abstract here), then the HookedWallet subprovider (library dispatch
abstract, hooks translated separately below), then the relay stage. -/
def initProviderStages (version : String)
    (cacheH subsH filterH nonceH hookedH : RpcRequest → StageResult)
    (relayRemote : RpcRequest → RemoteReply) : List Stage :=
  [{ tag := .fixture, handle := fixtureHandle version },
   { tag := .cache, handle := cacheH },
   { tag := .subscriptions, handle := subsH },
   { tag := .filterStage, handle := filterH },
   { tag := .nonce, handle := nonceH },
   { tag := .hookedWallet, handle := hookedH },
   { tag := .relay, handle := relayHandle relayRemote }]

/-- Modelled from the spec: the engine assembles the response for a
request from the ending stage's `(error, result)`, tagged with the
original request's `id` and `jsonrpc`; the library's response assembly
is not part of this repository. -/
def sendAsyncResponse (stages : List Stage) (req : RpcRequest) : Option RpcResponse :=
  match (dispatch stages req).2 with
  | some o => some { id := req.id, jsonrpc := req.jsonrpc, error := o.error, result := o.result }
  | none => none

/-- The value the synchronous facade returns for `eth_accounts` and
`eth_coinbase`: `this.selectedAddress ? [this.selectedAddress] : []`
(JavaScript truthiness: an unset or empty-string address yields the
empty list). -/
def accountsResult (selectedAddress : Option String) : JsVal :=
  match selectedAddress with
  | some a => if a = "" then .arr [] else .arr [a]
  | none => .arr []

/-- Outcome of the callback-free branch of `engine.send`: either a
synchronously thrown error, or a returned response together with the
payloads dispatched to the asynchronous pipeline as a side effect. -/
inductive SyncSendOutcome where
  | threw (message : String)
  | returned (resp : RpcResponse) (asyncDispatches : List RpcRequest)
deriving Repr, DecidableEq

/-- The payloads a synchronous call admits to the pipeline. -/
def SyncSendOutcome.pipelineDispatches : SyncSendOutcome → List RpcRequest
  | .threw _ => []
  | .returned _ ds => ds

/-- The callback-free branch of `engine.send` (index.ts lines
141-168): `eth_accounts` and `eth_coinbase` answer from
`selectedAddress`; `eth_uninstallFilter` fires the payload into
`engine.sendAsync` with a discarding callback and reports `true`; any
other method throws before a response object is built. -/
def engineSend (selectedAddress : Option String) (payload : RpcRequest) : SyncSendOutcome :=
  if payload.method = "eth_accounts" then
    .returned { id := payload.id, jsonrpc := payload.jsonrpc,
                result := accountsResult selectedAddress } []
  else if payload.method = "eth_coinbase" then
    .returned { id := payload.id, jsonrpc := payload.jsonrpc,
                result := accountsResult selectedAddress } []
  else if payload.method = "eth_uninstallFilter" then
    .returned { id := payload.id, jsonrpc := payload.jsonrpc, result := .bool true } [payload]
  else
    .threw ("The Portis Web3 object does not support synchronous methods like "
      ++ payload.method ++ " without a callback parameter.")

/-- JavaScript truthiness of the `error` half of a widget reply
(`error : string`): truthy iff present and non-empty. -/
def errTruthy : Option String → Bool
  | none => false
  | some s => s ≠ ""

/-- The reply of a `getAccounts` widget round trip:
`{ error: string, result: string[] }`, each half possibly absent. -/
structure AccountsReply where
  error : Option String := none
  result : Option (List String) := none
deriving Repr, DecidableEq

/-- The `selectedAddress` after the `getAccounts` hook (index.ts lines
189-196) processes a reply: `if (!error && result)` — error falsy and
result non-null, with no emptiness check — assign
`this.selectedAddress = result[0]` (which is `undefined`, i.e. `none`,
when the array is empty); otherwise leave the field alone. -/
def selectedAddressAfter (current : Option String) (reply : AccountsReply) : Option String :=
  match reply.result with
  | some rs => if errTruthy reply.error = false then rs.head? else current
  | none => current

/-- The `getAccounts` hook as a whole: the updated `selectedAddress`
paired with the `cb(error, result)` arguments, which are the reply's
halves verbatim. -/
def getAccountsHook (current : Option String) (reply : AccountsReply) :
    Option String × (Option String × Option (List String)) :=
  (selectedAddressAfter current reply, (reply.error, reply.result))

/-- `IMessageParams` from `interfaces.ts` (the `messageStandard` field
is absent on the caller's object and added by the hooks). -/
structure IMessageParams where
  fromAddr : String
  data : String
  messageStandard : Option String := none
deriving Repr, DecidableEq

/-- The remote methods imported from the widget
(`IConnectionMethods`). -/
inductive RemoteEndpoint where
  | getAccounts
  | signTransaction
  | signMessage
  | relay
  | showPortis
  | login
deriving Repr, DecidableEq

/-- A message-signing round trip as the hooks issue it: which remote
endpoint is invoked, with which params and config. -/
structure WidgetSignCall where
  endpoint : RemoteEndpoint
  params : IMessageParams
  config : SDKConfig
deriving Repr, DecidableEq

/-- The `signMessage` hook (index.ts lines 202-207):
`Object.assign({}, msgParams, { messageStandard: 'signMessage' })`
sent to `widgetCommunication.signMessage(params, this.config)`. -/
def signMessageHookCall (config : SDKConfig) (mp : IMessageParams) : WidgetSignCall :=
  { endpoint := .signMessage
    params := { mp with messageStandard := some "signMessage" }
    config := config }

/-- The `signPersonalMessage` hook (index.ts lines 208-213): same
remote endpoint, discriminator `'signPersonalMessage'`. -/
def signPersonalMessageHookCall (config : SDKConfig) (mp : IMessageParams) : WidgetSignCall :=
  { endpoint := .signMessage
    params := { mp with messageStandard := some "signPersonalMessage" }
    config := config }

/-- The `signTypedMessage` hook (index.ts lines 214-219): same remote
endpoint, discriminator `'signTypedMessage'`. -/
def signTypedMessageHookCall (config : SDKConfig) (mp : IMessageParams) : WidgetSignCall :=
  { endpoint := .signMessage
    params := { mp with messageStandard := some "signTypedMessage" }
    config := config }

/-- Every signing hook finishes with `cb(error, result)` on the reply
it received — the remote result is passed to the callback verbatim. -/
def signHookCallback (reply : RemoteReply) : Option String × JsVal :=
  (reply.error, reply.result)

/-- The operations of a live `Portis` instance that touch its state or
its widget promise, each carrying the reply its widget round trip
resolved to where one occurs. -/
inductive PortisOp where
  | changeNetwork (network : NetworkParam)
  | setDefaultEmail (email : String)
  | syncSend (payload : RpcRequest)
  | getAccountsRT (reply : AccountsReply)
  | signTransactionRT (reply : RemoteReply)
  | signMessageRT (mp : IMessageParams) (reply : RemoteReply)
  | signPersonalMessageRT (mp : IMessageParams) (reply : RemoteReply)
  | signTypedMessageRT (mp : IMessageParams) (reply : RemoteReply)
  | relayRT (payload : RpcRequest) (reply : RemoteReply)
  | showPortis
  | login
deriving Repr, DecidableEq

/-- What an operation did besides transforming the state: which widget
promise it awaited (`await this.widget`), if any, and how many fresh
handshakes it initiated (no method other than the constructor ever
calls `_initWidget`, so this is always zero). -/
structure OpOutput where
  awaitedWidget : Option Nat := none
  handshakesTriggered : Nat := 0
deriving Repr, DecidableEq

/-- One operation of the `Portis` instance: `changeNetwork` and
`setDefaultEmail` reassign config fields; the synchronous `send`
branch reads `selectedAddress` without writing it; the `getAccounts`
hook updates `selectedAddress` per `selectedAddressAfter`; every other
widget-backed operation awaits the memoized promise and leaves the
state untouched. -/
def step (s : PortisState) (op : PortisOp) : PortisState × OpOutput :=
  match op with
  | .changeNetwork n =>
    ({ s with config := { s.config with network := networkAdapter n } }, {})
  | .setDefaultEmail e =>
    ({ s with config := { s.config with defaultEmail := some e } }, {})
  | .syncSend _ => (s, {})
  | .getAccountsRT reply =>
    ({ s with selectedAddress := selectedAddressAfter s.selectedAddress reply },
     { awaitedWidget := some s.widgetPromiseId })
  | .signTransactionRT _ => (s, { awaitedWidget := some s.widgetPromiseId })
  | .signMessageRT _ _ => (s, { awaitedWidget := some s.widgetPromiseId })
  | .signPersonalMessageRT _ _ => (s, { awaitedWidget := some s.widgetPromiseId })
  | .signTypedMessageRT _ _ => (s, { awaitedWidget := some s.widgetPromiseId })
  | .relayRT _ _ => (s, { awaitedWidget := some s.widgetPromiseId })
  | .showPortis => (s, { awaitedWidget := some s.widgetPromiseId })
  | .login => (s, { awaitedWidget := some s.widgetPromiseId })

/-- Run a sequence of operations from a state, collecting each
operation's output. -/
def runOps (s : PortisState) : List PortisOp → PortisState × List OpOutput
  | [] => (s, [])
  | op :: ops =>
    let p := step s op
    let q := runOps p.1 ops
    (q.1, p.2 :: q.2)

/-- Sample handlers and request used by witnesses below. -/
def nextHandle : RpcRequest → StageResult := fun _ => .next

/-- A stage handler that always ends with a null result. -/
def endNullHandle : RpcRequest → StageResult := fun _ => .ended none .nullVal

/-- A constant remote relay reply. -/
def constRelayRemote : RpcRequest → RemoteReply := fun _ => { error := none, result := .nullVal }

/-- A request for a method no fixture entry answers. -/
def sampleReq : RpcRequest := { id := 7, jsonrpc := "2.0", method := "eth_blockNumber" }

/-- Key dispatch property: when the stage at position `k` is the first
one that does not forward the request, exactly the stages up to and
including `k` observe it. -/
theorem dispatch_stops_at_handler :
    ∀ (stages : List Stage) (req : RpcRequest) (k : Nat) (hk : k < stages.length),
      (∀ j, (hj : j < k) → (stages.get ⟨j, Nat.lt_trans hj hk⟩).handle req = StageResult.next) →
      (stages.get ⟨k, hk⟩).handle req ≠ StageResult.next →
      (dispatch stages req).1 = (stages.take (k + 1)).map Stage.tag := by
  intro stages
  induction stages with
  | nil => intro req k hk; exact absurd hk (by simp)
  | cons s rest ih =>
    intro req k hk hbefore hhandler
    cases k with
    | zero =>
      cases hs : s.handle req with
      | ended e r => simp [dispatch, hs]
      | next => exact absurd hs hhandler
    | succ k' =>
      have hs : s.handle req = StageResult.next := hbefore 0 (Nat.succ_pos k')
      have ihr := ih req k' (Nat.lt_of_succ_lt_succ hk)
        (fun j hj => hbefore (j + 1) (Nat.succ_lt_succ hj))
        hhandler
      simp [dispatch, hs, ihr]

/-- C1: `_initProvider` registers exactly seven stages in the fixed
order Fixture, Cache, Subscriptions, Filter, Nonce, HookedWallet,
Relay, and for every request whose method is handled by the stage at
position `k` (every earlier stage forwards it, stage `k` does not),
the stages observing the request are precisely the first `k + 1` —
no stage after `k` observes it. -/
theorem pipeline_stage_order_and_isolation
    (version : String) (cacheH subsH filterH nonceH hookedH : RpcRequest → StageResult)
    (relayRemote : RpcRequest → RemoteReply) :
    (initProviderStages version cacheH subsH filterH nonceH hookedH relayRemote).map Stage.tag
      = [.fixture, .cache, .subscriptions, .filterStage, .nonce, .hookedWallet, .relay] ∧
    ∀ (req : RpcRequest) (k : Nat)
      (hk : k < (initProviderStages version cacheH subsH filterH nonceH hookedH relayRemote).length),
      (∀ j, (hj : j < k) →
        ((initProviderStages version cacheH subsH filterH nonceH hookedH relayRemote).get
          ⟨j, Nat.lt_trans hj hk⟩).handle req = StageResult.next) →
      ((initProviderStages version cacheH subsH filterH nonceH hookedH relayRemote).get
        ⟨k, hk⟩).handle req ≠ StageResult.next →
      (dispatch (initProviderStages version cacheH subsH filterH nonceH hookedH relayRemote) req).1
        = ((initProviderStages version cacheH subsH filterH nonceH hookedH relayRemote).take
            (k + 1)).map Stage.tag := by
  refine ⟨rfl, ?_⟩
  intro req k hk hbefore hhandler
  exact dispatch_stops_at_handler _ req k hk hbefore hhandler

/-- Witness for C1: in a pipeline where the Cache stage answers, only
the Fixture and Cache stages observe the request. -/
theorem pipeline_stage_order_and_isolation_witness :
    (dispatch (initProviderStages "1" endNullHandle nextHandle nextHandle nextHandle nextHandle
        constRelayRemote) sampleReq).1 = [.fixture, .cache] := by
  have h := (pipeline_stage_order_and_isolation "1" endNullHandle nextHandle nextHandle nextHandle
      nextHandle constRelayRemote).2 sampleReq 1 (by decide)
    (by intro j hj; interval_cases j; rfl)
    (by decide)
  simpa using h

/-- C2: when the fixture table does not answer the request and every
one of stages 2 through 6 forwards it, the terminal relay stage is the
one that ends the request — it observes it exactly once and ends it
with the `error` and `result` of the remote `relay` round trip, so no
request is left without a handler. -/
theorem relay_stage_backstop
    (version : String) (cacheH subsH filterH nonceH hookedH : RpcRequest → StageResult)
    (relayRemote : RpcRequest → RemoteReply) (req : RpcRequest)
    (hfx : fixtureHandle version req = StageResult.next)
    (hc : cacheH req = StageResult.next) (hs : subsH req = StageResult.next)
    (hf : filterH req = StageResult.next) (hn : nonceH req = StageResult.next)
    (hw : hookedH req = StageResult.next) :
    dispatch (initProviderStages version cacheH subsH filterH nonceH hookedH relayRemote) req
      = ([.fixture, .cache, .subscriptions, .filterStage, .nonce, .hookedWallet, .relay],
         some { endedBy := .relay, error := (relayRemote req).error,
                result := (relayRemote req).result }) ∧
    ((dispatch (initProviderStages version cacheH subsH filterH nonceH hookedH relayRemote)
        req).1.count .relay) = 1 := by
  have h : dispatch (initProviderStages version cacheH subsH filterH nonceH hookedH relayRemote) req
      = ([.fixture, .cache, .subscriptions, .filterStage, .nonce, .hookedWallet, .relay],
         some { endedBy := .relay, error := (relayRemote req).error,
                result := (relayRemote req).result }) := by
    simp [initProviderStages, dispatch, relayHandle, hfx, hc, hs, hf, hn, hw]
  refine ⟨h, ?_⟩
  rw [h]
  rfl

/-- Witness for C2: a request for an unrecognized method falls through
all six earlier stages and is ended by the relay stage with the remote
reply. -/
theorem relay_stage_backstop_witness :
    dispatch (initProviderStages "1" nextHandle nextHandle nextHandle nextHandle nextHandle
        constRelayRemote) sampleReq
      = ([.fixture, .cache, .subscriptions, .filterStage, .nonce, .hookedWallet, .relay],
         some { endedBy := .relay, error := none, result := .nullVal }) :=
  (relay_stage_backstop "1" nextHandle nextHandle nextHandle nextHandle nextHandle
    constRelayRemote sampleReq rfl rfl rfl rfl rfl rfl).1

/-- C3: every response carries the id and jsonrpc version of the
request it answers — both for the synchronous responses built by the
`engine.send` facade and for the responses assembled from a pipeline
outcome. -/
theorem response_id_matches_request
    (sel : Option String) (payload : RpcRequest) (stages : List Stage) (req : RpcRequest) :
    (∀ resp ds, engineSend sel payload = SyncSendOutcome.returned resp ds →
      resp.id = payload.id ∧ resp.jsonrpc = payload.jsonrpc) ∧
    (∀ resp, sendAsyncResponse stages req = some resp →
      resp.id = req.id ∧ resp.jsonrpc = req.jsonrpc) := by
  constructor
  · intro resp ds h
    unfold engineSend at h
    split_ifs at h <;> cases h <;> exact ⟨rfl, rfl⟩
  · intro resp h
    unfold sendAsyncResponse at h
    cases hd : (dispatch stages req).2 with
    | none => rw [hd] at h; cases h
    | some o => rw [hd] at h; cases h; exact ⟨rfl, rfl⟩

/-- Witness for C3: a synchronous `eth_accounts` response and a relay
pipeline response both echo the request's id and jsonrpc. -/
theorem response_id_matches_request_witness :
    ({ id := 7, jsonrpc := "2.0", result := JsVal.arr [] } : RpcResponse).id = sampleReq.id ∧
    ({ id := 7, jsonrpc := "2.0", result := JsVal.arr [] } : RpcResponse).jsonrpc
      = sampleReq.jsonrpc :=
  (response_id_matches_request none { sampleReq with method := "eth_accounts" } [] sampleReq).1
    { id := 7, jsonrpc := "2.0", result := JsVal.arr [] } [] rfl

/-- C4: a callback-free `engine.send` call for any method outside the
allow-list {eth_accounts, eth_coinbase, eth_uninstallFilter} throws
the unsupported-synchronous-method error synchronously and admits
nothing to the pipeline. -/
theorem syncSend_unsupported_throws (sel : Option String) (payload : RpcRequest)
    (h : payload.method ∉ (["eth_accounts", "eth_coinbase", "eth_uninstallFilter"] : List String)) :
    engineSend sel payload
      = SyncSendOutcome.threw
          ("The Portis Web3 object does not support synchronous methods like "
            ++ payload.method ++ " without a callback parameter.") ∧
    (engineSend sel payload).pipelineDispatches = [] := by
  simp only [List.mem_cons, List.not_mem_nil, or_false, not_or] at h
  obtain ⟨h1, h2, h3⟩ := h
  refine ⟨?_, ?_⟩ <;>
    simp [engineSend, h1, h2, h3, SyncSendOutcome.pipelineDispatches]

/-- Witness for C4: `eth_sendTransaction` without a callback throws
and dispatches nothing. -/
theorem syncSend_unsupported_throws_witness :
    engineSend none { id := 1, jsonrpc := "2.0", method := "eth_sendTransaction" }
      = SyncSendOutcome.threw
          ("The Portis Web3 object does not support synchronous methods like "
            ++ "eth_sendTransaction" ++ " without a callback parameter.") ∧
    (engineSend none
      { id := 1, jsonrpc := "2.0", method := "eth_sendTransaction" }).pipelineDispatches = [] :=
  syncSend_unsupported_throws none { id := 1, jsonrpc := "2.0", method := "eth_sendTransaction" }
    (by decide)

/-- C5: on the callback-free path, `eth_accounts` and `eth_coinbase`
answer with the one-element list holding the selected address when one
is set and with the empty list when none is (in particular before any
login, and `["0xABC"]` right after a successful `getAccounts` round
trip resolving to `["0xABC"]`), while `eth_uninstallFilter` admits the
payload to the asynchronous pipeline fire-and-forget and synchronously
reports `true`. -/
theorem syncSend_allowlist_behavior (payload : RpcRequest) (a : String) (sel : Option String)
    (ha : a ≠ "") :
    (payload.method = "eth_accounts" ∨ payload.method = "eth_coinbase" →
      engineSend none payload
        = SyncSendOutcome.returned
            { id := payload.id, jsonrpc := payload.jsonrpc, result := .arr [] } [] ∧
      engineSend (some a) payload
        = SyncSendOutcome.returned
            { id := payload.id, jsonrpc := payload.jsonrpc, result := .arr [a] } []) ∧
    (payload.method = "eth_uninstallFilter" →
      engineSend sel payload
        = SyncSendOutcome.returned
            { id := payload.id, jsonrpc := payload.jsonrpc, result := .bool true } [payload]) ∧
    ((getAccountsHook none { error := none, result := some ["0xABC"] }).1 = some "0xABC" ∧
      engineSend (getAccountsHook none { error := none, result := some ["0xABC"] }).1
          { id := payload.id, jsonrpc := payload.jsonrpc, method := "eth_accounts" }
        = SyncSendOutcome.returned
            { id := payload.id, jsonrpc := payload.jsonrpc, result := .arr ["0xABC"] } []) := by
  refine ⟨?_, ?_, ?_, ?_⟩
  · rintro (hm | hm) <;>
      exact ⟨by simp [engineSend, hm, accountsResult],
             by simp [engineSend, hm, accountsResult, ha]⟩
  · intro hm
    simp [engineSend, hm, accountsResult]
  · rfl
  · simp [getAccountsHook, selectedAddressAfter, errTruthy, engineSend, accountsResult]

/-- Witness for C5: before any login the synchronous account query
returns the empty list; after the simulated successful round trip it
returns `["0xABC"]`; the filter uninstall reports `true` with one
fire-and-forget dispatch. -/
theorem syncSend_allowlist_behavior_witness :
    engineSend none { id := 3, jsonrpc := "2.0", method := "eth_accounts" }
      = SyncSendOutcome.returned { id := 3, jsonrpc := "2.0", result := .arr [] } [] ∧
    engineSend (getAccountsHook none { error := none, result := some ["0xABC"] }).1
        { id := 3, jsonrpc := "2.0", method := "eth_accounts" }
      = SyncSendOutcome.returned { id := 3, jsonrpc := "2.0", result := .arr ["0xABC"] } [] ∧
    engineSend none { id := 4, jsonrpc := "2.0", method := "eth_uninstallFilter" }
      = SyncSendOutcome.returned { id := 4, jsonrpc := "2.0", result := .bool true }
          [{ id := 4, jsonrpc := "2.0", method := "eth_uninstallFilter" }] :=
  ⟨((syncSend_allowlist_behavior { id := 3, jsonrpc := "2.0", method := "eth_accounts" }
      "0xABC" none (by decide)).1 (Or.inl rfl)).1,
   (syncSend_allowlist_behavior { id := 3, jsonrpc := "2.0", method := "eth_accounts" }
      "0xABC" none (by decide)).2.2.2,
   (syncSend_allowlist_behavior { id := 4, jsonrpc := "2.0", method := "eth_uninstallFilter" }
      "0xABC" none (by decide)).2.1 rfl⟩

/-- Counterexample to C6: the `getAccounts` hook guards only with
`if (!error && result)` — a JavaScript emptiness-blind truthiness test,
since an empty array is truthy — so a successful round trip whose
result is the EMPTY address list still mutates `selectedAddress`,
overwriting a previously cached `"0xABC"` with `result[0]`, i.e.
`undefined`. The claim, which allows mutation only for a non-empty
result list, is therefore false. -/
theorem selectedAddress_empty_result_counterexample :
    (getAccountsHook (some "0xABC") { error := none, result := some [] }).1 = none ∧
    (getAccountsHook (some "0xABC") { error := none, result := some [] }).1
      ≠ some "0xABC" := by
  exact ⟨rfl, by decide⟩

/-- A concrete valid state used by witnesses below. -/
def sampleState : PortisState :=
  { config :=
      { dappId := "dapp", network := { nodeUrl := "https://node" }, version := sdkVersion }
    selectedAddress := none
    widgetPromiseId := 0
    handshakesStarted := 1
    handshakeTrigger := .atConstruction }

/-- C6 (amended): `selectedAddress` changes only as a direct result of
a `getAccounts` round trip with falsy error and a present (possibly
empty) result list, in which case it becomes the first element of that
list (`none` when the list is empty, since `result[0]` is then
`undefined`); no other operation of the instance mutates it. -/
theorem selectedAddress_mutation_characterization (s : PortisState) (op : PortisOp)
    (h : (step s op).1.selectedAddress ≠ s.selectedAddress) :
    ∃ reply, op = PortisOp.getAccountsRT reply ∧ errTruthy reply.error = false ∧
      ∃ rs, reply.result = some rs ∧ (step s op).1.selectedAddress = rs.head? := by
  cases op with
  | getAccountsRT reply =>
    refine ⟨reply, rfl, ?_⟩
    simp only [step] at h ⊢
    unfold selectedAddressAfter at h ⊢
    cases hr : reply.result with
    | none => rw [hr] at h; exact absurd rfl h
    | some rs =>
      rw [hr] at h
      cases he : errTruthy reply.error with
      | false => exact ⟨rfl, rs, rfl, by simp [he]⟩
      | true => simp [he] at h
  | changeNetwork n => simp [step] at h
  | setDefaultEmail e => simp [step] at h
  | syncSend p => simp [step] at h
  | signTransactionRT r => simp [step] at h
  | signMessageRT mp r => simp [step] at h
  | signPersonalMessageRT mp r => simp [step] at h
  | signTypedMessageRT mp r => simp [step] at h
  | relayRT p r => simp [step] at h
  | showPortis => simp [step] at h
  | login => simp [step] at h

/-- Witness for the amended C6: a successful round trip resolving to
`["0xABC"]` mutates the address, and the characterization identifies
the round trip and the new value. -/
theorem selectedAddress_mutation_characterization_witness :
    ∃ reply,
      PortisOp.getAccountsRT { error := none, result := some ["0xABC"] }
        = PortisOp.getAccountsRT reply ∧
      errTruthy reply.error = false ∧
      ∃ rs, reply.result = some rs ∧
        (step sampleState
          (PortisOp.getAccountsRT { error := none, result := some ["0xABC"] })).1.selectedAddress
          = rs.head? :=
  selectedAddress_mutation_characterization sampleState
    (PortisOp.getAccountsRT { error := none, result := some ["0xABC"] }) (by decide)

/-- The scope values that validation actually rejects: a truthy
non-array, or an array containing an element other than `'email'`
(arrays are always truthy). A falsy scope value skips validation
entirely because of the `if (options.scope)` guard. -/
def scopeRejected : Option ScopeValue → Bool
  | none => false
  | some (.arr items) => items.any (fun x => x ≠ "email")
  | some sv => sv.truthy

/-- The source's unknown-scope filter finds something exactly when
some element differs from `'email'`. -/
theorem filter_unknown_pos_iff_any (items : List String) :
    ((items.filter (fun item => !(["email"].contains item))).length > 0)
      ↔ items.any (fun x => x ≠ "email") = true := by
  induction items with
  | nil => simp
  | cons x xs ih =>
    by_cases hx : x = "email"
    · simpa [hx, List.contains] using ih
    · simp [hx, List.contains]

/-- On a well-formed dapp id and network, validating an array scope
reduces to the unknown-scope filter. -/
theorem valiadateParams_arr (dappId : String) (network : NetworkParam)
    (hd : ¬ dappId = "") (hn : ¬ network.truthy = false) (items : List String) :
    valiadateParams dappId network { scope := some (.arr items) }
      = (if (items.filter (fun item => !(["email"].contains item))).length > 0
          then some .invalidScope else none) := by
  unfold valiadateParams
  rw [if_neg hd, if_neg hn]
  show (if ScopeValue.truthy (.arr items) = false then none
      else if ScopeValue.isArray (.arr items) = false then some ValidationError.scopeNotArray
      else if ((items.filter (fun item => !(["email"].contains item))).length > 0)
        then some ValidationError.invalidScope else none) = _
  rw [if_neg (by simp [ScopeValue.truthy]), if_neg (by simp [ScopeValue.isArray])]

/-- `_valiadateParams` reports some error exactly when the dapp id is
falsy, the network is falsy, or the scope value is rejected. -/
theorem valiadateParams_isSome_iff (dappId : String) (network : NetworkParam)
    (options : IOptions) :
    ((valiadateParams dappId network options).isSome = true
      ↔ (dappId = "" ∨ network.truthy = false ∨ scopeRejected options.scope = true)) := by
  obtain ⟨sc⟩ := options
  by_cases hd : dappId = ""
  · simp [valiadateParams, hd]
  · by_cases hn : network.truthy = false
    · simp [valiadateParams, hd, hn]
    · cases sc with
      | none => simp [valiadateParams, hd, hn, scopeRejected]
      | some sv =>
        cases sv with
        | arr items =>
          rw [valiadateParams_arr dappId network hd hn items]
          constructor
          · intro h
            refine Or.inr (Or.inr ?_)
            by_cases hu : ((items.filter (fun item => !(["email"].contains item))).length > 0)
            · exact (filter_unknown_pos_iff_any items).mp hu
            · rw [if_neg hu] at h
              simp at h
          · rintro (h | h | h)
            · exact absurd h hd
            · exact absurd h hn
            · rw [if_pos ((filter_unknown_pos_iff_any items).mpr h)]
              rfl
        | str s =>
          by_cases hs : s = "" <;>
            simp [valiadateParams, hd, hn, hs, ScopeValue.truthy, ScopeValue.isArray,
              scopeRejected]
        | num n =>
          by_cases hz : n = 0 <;>
            simp [valiadateParams, hd, hn, hz, ScopeValue.truthy, ScopeValue.isArray,
              scopeRejected]
        | boolVal b =>
          cases b <;>
            simp [valiadateParams, hd, hn, ScopeValue.truthy, ScopeValue.isArray, scopeRejected]
        | nullVal =>
          simp [valiadateParams, hd, hn, ScopeValue.truthy, ScopeValue.isArray, scopeRejected]

/-- C7 (amended): construction throws synchronously — the validation
runs before the config, widget promise or provider is built, so a
throwing construction initiates no handshake — exactly when the dapp
id is missing (falsy), the network is missing (falsy), or the scope
option is TRUTHY and malformed (a truthy non-array, or an array
containing a value other than `'email'`); a falsy scope value such as
`''` skips validation. In particular `scope = ["email"]` succeeds and
`scope = ["unknownValue"]` throws the scope-validation error. -/
theorem construct_validation_characterization (dappId : String) (network : NetworkParam)
    (options : IOptions) (docReady : Bool) :
    (constructThrows dappId network options = true
      ↔ (dappId = "" ∨ network.truthy = false ∨ scopeRejected options.scope = true)) ∧
    handshakesOf (construct dappId network options docReady)
      = (if constructThrows dappId network options = true then 0 else 1) ∧
    constructThrows "dapp" (.str "mainnet") { scope := some (.arr ["email"]) } = false ∧
    valiadateParams "dapp" (.str "mainnet") { scope := some (.arr ["unknownValue"]) }
      = some .invalidScope := by
  refine ⟨valiadateParams_isSome_iff dappId network options, ?_, by decide, by decide⟩
  unfold handshakesOf construct constructThrows
  cases hv : valiadateParams dappId network options <;> simp [hv]

/-- Counterexample to C7: `scope = ""` is a provided scope option that
is not an array — malformed by the claim's own definition — yet
construction succeeds (it even initiates the handshake), because the
`if (options.scope)` truthiness guard skips validation of any falsy
scope value. -/
theorem construct_falsy_scope_counterexample :
    constructThrows "dapp" (.net { nodeUrl := "https://node" })
      { scope := some (.str "") } = false ∧
    (ScopeValue.str "").isArray = false ∧
    handshakesOf (construct "dapp" (.net { nodeUrl := "https://node" })
      { scope := some (.str "") } true) = 1 := by
  refine ⟨?_, rfl, ?_⟩ <;> decide

/-- No operation of a live instance changes the widget promise, starts
a handshake, or awaits any promise other than the instance's one. -/
theorem step_widget_fields (s : PortisState) (op : PortisOp) :
    (step s op).1.widgetPromiseId = s.widgetPromiseId ∧
    (step s op).1.handshakesStarted = s.handshakesStarted ∧
    (step s op).2.handshakesTriggered = 0 ∧
    ∀ pid, (step s op).2.awaitedWidget = some pid → pid = s.widgetPromiseId := by
  cases op <;> simp [step]

/-- The projection used to talk about a successful construction's
handshake trigger. -/
def handshakeTriggerOf : Except ValidationError PortisState → Option HandshakeTrigger
  | .error _ => none
  | .ok s => some s.handshakeTrigger

/-- C9 (amended): the handshake is initiated exactly once per
instance, by the constructor (as soon as the document is ready, not on
first need), and the resulting promise is memoized: after any sequence
of operations the handshake count is still one, no operation triggers
a handshake, and every operation that awaits the widget awaits the
single promise the constructor created. -/
theorem widget_promise_memoized (dappId : String) (network : NetworkParam)
    (options : IOptions) (docReady : Bool) (s : PortisState)
    (h : construct dappId network options docReady = .ok s) (ops : List PortisOp) :
    ((runOps s ops).1.handshakesStarted = 1 ∧
      (runOps s ops).1.widgetPromiseId = s.widgetPromiseId) ∧
    (∀ o ∈ (runOps s ops).2, o.handshakesTriggered = 0 ∧
      ∀ pid, o.awaitedWidget = some pid → pid = s.widgetPromiseId) := by
  have hs1 : s.handshakesStarted = 1 := by
    unfold construct at h
    cases hv : valiadateParams dappId network options <;> rw [hv] at h
    · cases h
      rfl
    · cases h
  have main : ∀ (t : PortisState) (l : List PortisOp),
      t.handshakesStarted = 1 → t.widgetPromiseId = s.widgetPromiseId →
      ((runOps t l).1.handshakesStarted = 1 ∧
        (runOps t l).1.widgetPromiseId = s.widgetPromiseId) ∧
      (∀ o ∈ (runOps t l).2, o.handshakesTriggered = 0 ∧
        ∀ pid, o.awaitedWidget = some pid → pid = s.widgetPromiseId) := by
    intro t l
    induction l generalizing t with
    | nil => intro h1 h2; exact ⟨⟨h1, h2⟩, by simp [runOps]⟩
    | cons op rest ih =>
      intro h1 h2
      obtain ⟨hw, hh, ht, ha⟩ := step_widget_fields t op
      have ihr := ih (step t op).1 (by rw [hh, h1]) (by rw [hw, h2])
      refine ⟨ihr.1, ?_⟩
      intro o ho
      simp only [runOps, List.mem_cons] at ho
      rcases ho with ho | ho
      · subst ho
        exact ⟨ht, fun pid hp => h2 ▸ ha pid hp⟩
      · exact ihr.2 o ho
  exact main s ops hs1 rfl

/-- Witness for the amended C9: a login, a signing round trip and a
relay from a freshly constructed instance all await promise 0, the one
handshake of the instance. -/
theorem widget_promise_memoized_witness :
    ((runOps sampleState
        [PortisOp.login, PortisOp.getAccountsRT { error := none, result := some ["0xABC"] },
         PortisOp.relayRT sampleReq { error := none, result := .nullVal }]).1.handshakesStarted
      = 1 ∧
      (runOps sampleState
        [PortisOp.login, PortisOp.getAccountsRT { error := none, result := some ["0xABC"] },
         PortisOp.relayRT sampleReq { error := none, result := .nullVal }]).1.widgetPromiseId
        = sampleState.widgetPromiseId) ∧
    (∀ o ∈ (runOps sampleState
        [PortisOp.login, PortisOp.getAccountsRT { error := none, result := some ["0xABC"] },
         PortisOp.relayRT sampleReq { error := none, result := .nullVal }]).2,
      o.handshakesTriggered = 0 ∧
      ∀ pid, o.awaitedWidget = some pid → pid = sampleState.widgetPromiseId) :=
  widget_promise_memoized "dapp" (.net { nodeUrl := "https://node" }) {} true sampleState
    rfl
    [PortisOp.login, PortisOp.getAccountsRT { error := none, result := some ["0xABC"] },
     PortisOp.relayRT sampleReq { error := none, result := .nullVal }]

/-- Counterexample to C9: constructing an instance while the document
is already ready initiates the handshake immediately, with no
operation having needed the widget — the handshake is eager (driven by
document readiness), not created lazily on first need. -/
theorem widget_handshake_not_lazy_counterexample :
    handshakeTriggerOf (construct "dapp" (.net { nodeUrl := "https://node" }) {} true)
      = some .atConstruction ∧
    handshakesOf (construct "dapp" (.net { nodeUrl := "https://node" }) {} true) = 1 := by
  exact ⟨rfl, rfl⟩

/-- C10: any array scope all of whose elements are `'email'` —
including the empty array and arrays with repeated `'email'` entries —
passes scope validation: the unknown-scope filter is empty, so neither
the not-an-array error nor the invalid-scope error is raised, whatever
the dapp id and network are. -/
theorem scope_all_email_accepted (dappId : String) (network : NetworkParam)
    (items : List String) (hall : ∀ x ∈ items, x = "email") :
    valiadateParams dappId network { scope := some (.arr items) }
        ≠ some ValidationError.scopeNotArray ∧
    valiadateParams dappId network { scope := some (.arr items) }
        ≠ some ValidationError.invalidScope := by
  by_cases hd : dappId = ""
  · constructor <;> simp [valiadateParams, hd]
  · by_cases hn : network.truthy = false
    · constructor <;> simp [valiadateParams, hd, hn]
    · rw [valiadateParams_arr dappId network hd hn items]
      have hno : ¬ ((items.filter (fun item => !(["email"].contains item))).length > 0) := by
        intro hu
        obtain ⟨x, hx, hne⟩ := List.any_eq_true.mp ((filter_unknown_pos_iff_any items).mp hu)
        exact (of_decide_eq_true hne) (hall x hx)
      rw [if_neg hno]
      exact ⟨by simp, by simp⟩

/-- Witness for C10: both the empty array and `["email", "email"]`
pass scope validation. -/
theorem scope_all_email_accepted_witness :
    (valiadateParams "dapp" (.str "mainnet") { scope := some (.arr []) }
        ≠ some ValidationError.invalidScope) ∧
    (valiadateParams "dapp" (.str "mainnet") { scope := some (.arr ["email", "email"]) }
        ≠ some ValidationError.invalidScope) :=
  ⟨(scope_all_email_accepted "dapp" (.str "mainnet") [] (by decide)).2,
   (scope_all_email_accepted "dapp" (.str "mainnet") ["email", "email"] (by decide)).2⟩

/-- C8: the three message-signing hooks all invoke the single remote
`signMessage` endpoint, each passing the caller's message params with
the `messageStandard` discriminator set to its own name alongside the
current config, and each hands the remote reply's error and result to
its callback verbatim. -/
theorem sign_hooks_share_endpoint (config : SDKConfig) (mp : IMessageParams)
    (reply : RemoteReply) :
    ((signMessageHookCall config mp).endpoint = .signMessage ∧
      (signPersonalMessageHookCall config mp).endpoint = .signMessage ∧
      (signTypedMessageHookCall config mp).endpoint = .signMessage) ∧
    ((signMessageHookCall config mp).params.messageStandard = some "signMessage" ∧
      (signPersonalMessageHookCall config mp).params.messageStandard
        = some "signPersonalMessage" ∧
      (signTypedMessageHookCall config mp).params.messageStandard
        = some "signTypedMessage") ∧
    ((signMessageHookCall config mp).params.fromAddr = mp.fromAddr ∧
      (signMessageHookCall config mp).params.data = mp.data ∧
      (signPersonalMessageHookCall config mp).params.fromAddr = mp.fromAddr ∧
      (signPersonalMessageHookCall config mp).params.data = mp.data ∧
      (signTypedMessageHookCall config mp).params.fromAddr = mp.fromAddr ∧
      (signTypedMessageHookCall config mp).params.data = mp.data) ∧
    ((signMessageHookCall config mp).config = config ∧
      (signPersonalMessageHookCall config mp).config = config ∧
      (signTypedMessageHookCall config mp).config = config) ∧
    signHookCallback reply = (reply.error, reply.result) := by
  refine ⟨⟨rfl, rfl, rfl⟩, ⟨rfl, rfl, rfl⟩, ⟨rfl, rfl, rfl, rfl, rfl, rfl⟩,
    ⟨rfl, rfl, rfl⟩, rfl⟩
